import Mathlib

/-!
# Verification of the cracklord resource queue (`src/resource/resource.go`)

Shallow embedding of the `resource` package: the `Queue` struct with its
task store (`stack`, a Go `map[string]common.Tasker`), tool registry
(`tools`, a slice), auth token, and derived hardware capability set
(`hardware`, a Go `map[string]bool` used as a set), together with the
RPC operations `ResourceHardware`, `AddTask`, `TaskStatus`, `TaskPause`,
`TaskRun`, `TaskQuit`, `ResourceTools`, `AllTaskStatus` and the
registration function `AddTool`.

Modelling conventions:
* Go maps become association lists (`List (String × Tasker)`) with
  insert-replaces / delete / lookup operations, and `map[string]bool`
  used as a set becomes a duplicate-free `List String`.
* A `common.Tasker` (external interface) is modelled as a record of the
  observable behaviour of its four methods: the error returned by `Run`,
  the error returned by `Pause`, the `Job` returned by `Status`, and the
  `Job` returned by `Quit`.  A call to a task method is a side effect on
  the task object (the map binding itself never changes when a method is
  called), so each operation also reports the trace of task-method
  invocations it performed, as a list of `TaskEvent`s naming the method
  and the task instance.
* A `common.Tooler` (external interface) is modelled as a record of the
  values its accessor methods return plus its `NewTask` factory.
* A Go RPC method `func (q *Queue) Op(rpc, out *T) error` becomes a pure
  function producing an `OpResult T`: the returned error (`none` = nil),
  the output written through the pointer (`none` = never written), the
  updated queue, and the trace of task-method invocations.
* A nil-interface method call (dereferencing an absent map entry, which
  panics at run time) is modelled as the `none` case of an
  `Option (OpResult T)` result: `none` means the call crashes rather
  than returning.
-/

/-- `common.Job`: transfer record. Only the fields the resource package
reads (`UUID`, `ToolUUID`) plus a status payload standing for the rest
of the record. -/
structure Job where
  UUID : String
  ToolUUID : String
  Status : String
  deriving DecidableEq, Repr

/-- `common.Tasker` (external interface), modelled by the observable
behaviour of its methods. `taskId` distinguishes task instances (the
identity of the Go interface value). -/
structure Tasker where
  taskId : Nat
  runResult : Option String
  pauseResult : Option String
  statusJob : Job
  quitJob : Job
  deriving DecidableEq, Repr

/-- `Tasker.Run()`: returns the task's run error (nil = `none`). -/
def Tasker.Run (t : Tasker) : Option String := t.runResult

/-- `Tasker.Pause()`: returns the task's pause error (nil = `none`). -/
def Tasker.Pause (t : Tasker) : Option String := t.pauseResult

/-- `Tasker.Status()`: returns a status snapshot `Job`. -/
def Tasker.Status (t : Tasker) : Job := t.statusJob

/-- `Tasker.Quit()`: terminates the task and returns its final `Job`
(always succeeds per the Tasker contract). -/
def Tasker.Quit (t : Tasker) : Job := t.quitJob

/-- One delegated call to a task method, naming the method and the
task instance (`taskId`) it was invoked on. -/
inductive TaskEvent where
  | run (id : Nat)
  | pause (id : Nat)
  | quit (id : Nat)
  | status (id : Nat)
  deriving DecidableEq, Repr

/-- `common.Tooler` (external interface): accessor results plus the
`NewTask` factory. `SetUUID` is modelled by `Queue.AddTool` updating the
`UUID` field. -/
structure Tooler where
  UUID : String
  Name : String
  ToolType : String
  Version : String
  Parameters : String
  Requirements : String
  NewTask : Job → Except String Tasker

/-- `common.Tool`: the plain descriptor struct filled in by
`ResourceTools` (field `Type` is spelled `ToolType`). -/
structure Tool where
  Name : String
  ToolType : String
  Version : String
  UUID : String
  Parameters : String
  Requirements : String
  deriving DecidableEq, Repr

/-- `common.RPCCall`: authenticated envelope. -/
structure RPCCall where
  Auth : String
  Job : Job
  deriving DecidableEq, Repr

/-- `ERROR_AUTH` constant from resource.go. -/
def ERROR_AUTH : String :=
  "Call to resource did not have the proper authentication token."

/-- `ERROR_NO_TOOL` constant from resource.go (typo included). -/
def ERROR_NO_TOOL : String := "Tool specified does not exit."

/-- The context string `AddTask` prepends to a failed `Run` error. -/
def ERROR_START_PREFIX : String := "Error starting task on the resource: "

/-- Lookup in a Go `map[string]common.Tasker` modelled as an
association list. -/
def mapLookup (k : String) : List (String × Tasker) → Option Tasker
  | [] => none
  | p :: rest => if p.1 = k then some p.2 else mapLookup k rest

/-- Go map assignment `m[k] = v`: replace the binding if present,
append otherwise. -/
def mapInsert (k : String) (v : Tasker) : List (String × Tasker) → List (String × Tasker)
  | [] => [(k, v)]
  | p :: rest => if p.1 = k then (k, v) :: rest else p :: mapInsert k v rest

/-- Go `delete(m, k)`. -/
def mapDelete (k : String) : List (String × Tasker) → List (String × Tasker)
  | [] => []
  | p :: rest => if p.1 = k then mapDelete k rest else p :: mapDelete k rest

/-- Go `m[tag] = true` on a `map[string]bool` used as a set. -/
def insertTag (tag : String) (hw : List String) : List String :=
  if tag ∈ hw then hw else hw ++ [tag]

/-- The `Queue` struct of resource.go (the `sync.RWMutex` carries no
data and is dropped; lock-protected sequences are modelled as atomic). -/
structure Queue where
  stack : List (String × Tasker)
  tools : List Tooler
  authToken : String
  hardware : List String

/-- `NewResourceQueue`. -/
def NewResourceQueue (token : String) : Queue :=
  { stack := [], tools := [], authToken := token, hardware := [] }

/-- `Queue.AddTool`: records the tool's hardware requirement tag, sets a
fresh UUID on the tool and appends it to the registry.  The fresh UUID
(produced by `uuid.New()` in Go) is passed in explicitly. -/
def Queue.AddTool (q : Queue) (tooler : Tooler) (newUuid : String) : Queue :=
  { q with
    hardware := insertTag tooler.Requirements q.hardware
    tools := q.tools ++ [{ tooler with UUID := newUuid }] }

/-- Result of one RPC method: the returned `error` (`none` = nil), the
value written through the output pointer (`none` = never written), the
queue state after the call, and the trace of task-method invocations
the call performed. -/
structure OpResult (α : Type) where
  err : Option String
  out : Option α
  queue : Queue
  events : List TaskEvent

/-- `Queue.ResourceHardware`: auth check, then returns the hardware
capability set. -/
def Queue.ResourceHardware (q : Queue) (rpc : RPCCall) : OpResult (List String) :=
  if rpc.Auth ≠ q.authToken then ⟨some ERROR_AUTH, none, q, []⟩
  else ⟨none, some q.hardware, q, []⟩

/-- The tool-matching loop of `AddTask`: iterates over the registry; on
a UUID match invokes the tool's factory, returning its error
immediately if it fails, and otherwise overwrites the `tasker` local
(the Go loop has no `break`, so a later match overwrites an earlier
one). `acc` is the current value of the `tasker` local (`none` = Go
nil). -/
def scanTools (job : Job) : List Tooler → Option Tasker → Except String (Option Tasker)
  | [], acc => .ok acc
  | t :: rest, acc =>
    if t.UUID = job.ToolUUID then
      match t.NewTask job with
      | .error e => .error e
      | .ok tk => scanTools job rest (some tk)
    else scanTools job rest acc

/-- `Queue.AddTask`: auth check; scan the registry for the Job's tool
UUID (factory error returned verbatim); `ERROR_NO_TOOL` if the `tasker`
local stayed nil; otherwise store the task under the Job's UUID, call
`Run()` on it (wrapping a failure with `ERROR_START_PREFIX` and leaving
the task stored), and on success return the task's status snapshot. -/
def Queue.AddTask (q : Queue) (rpc : RPCCall) : OpResult Job :=
  if rpc.Auth ≠ q.authToken then ⟨some ERROR_AUTH, none, q, []⟩
  else
    match scanTools rpc.Job q.tools none with
    | .error e => ⟨some e, none, q, []⟩
    | .ok none => ⟨some ERROR_NO_TOOL, none, q, []⟩
    | .ok (some tasker) =>
      let q' : Queue := { q with stack := mapInsert rpc.Job.UUID tasker q.stack }
      match tasker.Run with
      | some e => ⟨some (ERROR_START_PREFIX ++ e), none, q', [.run tasker.taskId]⟩
      | none =>
        ⟨none, some tasker.Status, q', [.run tasker.taskId, .status tasker.taskId]⟩

/-- `Queue.TaskStatus`: auth check; looks up the Job's UUID.  The Go
code constructs (and discards) a "Task with UUID provided does not
exist." error when the lookup SUCCEEDS (`if ok != false`) and then
unconditionally calls `.Status()` on the map entry, so a present task
yields its status with a nil error and an absent task is a
nil-interface method call — a run-time panic, modelled as `none`. -/
def Queue.TaskStatus (q : Queue) (rpc : RPCCall) : Option (OpResult Job) :=
  if rpc.Auth ≠ q.authToken then some ⟨some ERROR_AUTH, none, q, []⟩
  else
    match mapLookup rpc.Job.UUID q.stack with
    | some t => some ⟨none, some t.Status, q, [.status t.taskId]⟩
    | none => none

/-- `Queue.TaskPause`: auth check; same inverted existence check as
`TaskStatus` (here `if ok`), so an absent task panics (`none`).  On a
present task, calls `Pause()`: if it fails, calls `Quit()` on the task
(discarding the returned Job; the map binding is untouched — the quit
is a side effect on the task object, recorded in the trace) and returns
the pause error; otherwise returns the status snapshot. -/
def Queue.TaskPause (q : Queue) (rpc : RPCCall) : Option (OpResult Job) :=
  if rpc.Auth ≠ q.authToken then some ⟨some ERROR_AUTH, none, q, []⟩
  else
    match mapLookup rpc.Job.UUID q.stack with
    | some t =>
      match t.Pause with
      | some e => some ⟨some e, none, q, [.pause t.taskId, .quit t.taskId]⟩
      | none => some ⟨none, some t.Status, q, [.pause t.taskId, .status t.taskId]⟩
    | none => none

/-- `Queue.TaskRun`: auth check; inverted existence check (absent task
panics, modelled as `none`); calls `Run()` on the task, returning its
error verbatim or the status snapshot on success. -/
def Queue.TaskRun (q : Queue) (rpc : RPCCall) : Option (OpResult Job) :=
  if rpc.Auth ≠ q.authToken then some ⟨some ERROR_AUTH, none, q, []⟩
  else
    match mapLookup rpc.Job.UUID q.stack with
    | some t =>
      match t.Run with
      | some e => some ⟨some e, none, q, [.run t.taskId]⟩
      | none => some ⟨none, some t.Status, q, [.run t.taskId, .status t.taskId]⟩
    | none => none

/-- `Queue.TaskQuit`: auth check; inverted existence check (absent task
panics, modelled as `none`); calls `Quit()` on the task, returns the
final Job and deletes the entry from the stack. -/
def Queue.TaskQuit (q : Queue) (rpc : RPCCall) : Option (OpResult Job) :=
  if rpc.Auth ≠ q.authToken then some ⟨some ERROR_AUTH, none, q, []⟩
  else
    match mapLookup rpc.Job.UUID q.stack with
    | some t =>
      some ⟨none, some t.Quit, { q with stack := mapDelete rpc.Job.UUID q.stack },
        [.quit t.taskId]⟩
    | none => none

/-- Snapshot of one registered tool, as built by `ResourceTools`. -/
def toolSnapshot (t : Tooler) : Tool :=
  { Name := t.Name, ToolType := t.ToolType, Version := t.Version,
    UUID := t.UUID, Parameters := t.Parameters, Requirements := t.Requirements }

/-- `Queue.ResourceTools` (the ListTools operation): builds descriptor
snapshots for every registered tool.  NOTE: the Go source performs no
authentication check in this method. -/
def Queue.ResourceTools (q : Queue) (_rpc : RPCCall) : OpResult (List Tool) :=
  ⟨none, some (q.tools.map toolSnapshot), q, []⟩

/-- `Queue.AllTaskStatus`: auth check, then a status snapshot of every
task in the stack (Go map iteration order is unspecified; the
association-list order stands in for it). -/
def Queue.AllTaskStatus (q : Queue) (rpc : RPCCall) : OpResult (List Job) :=
  if rpc.Auth ≠ q.authToken then ⟨some ERROR_AUTH, none, q, []⟩
  else
    ⟨none, some (q.stack.map (fun p => p.2.Status)), q,
      q.stack.map (fun p => .status p.2.taskId)⟩

/-- Registration at node startup: fold `AddTool` over a list of tools
paired with the fresh UUIDs assigned to them. -/
def registerAll (q : Queue) : List (Tooler × String) → Queue
  | [] => q
  | (t, u) :: rest => registerAll (q.AddTool t u) rest

/-! ## Association-list lemmas -/

theorem mapLookup_mapInsert_self (k : String) (v : Tasker) (m : List (String × Tasker)) :
    mapLookup k (mapInsert k v m) = some v := by
  induction m with
  | nil => simp [mapInsert, mapLookup]
  | cons p rest ih =>
    by_cases h : p.1 = k
    · simp [mapInsert, mapLookup, h]
    · simp [mapInsert, mapLookup, h, ih]

theorem mapLookup_mapInsert_ne (k k' : String) (v : Tasker) (m : List (String × Tasker))
    (h : k ≠ k') : mapLookup k (mapInsert k' v m) = mapLookup k m := by
  have hk : ¬ (k' = k) := fun he => h he.symm
  induction m with
  | nil => simp [mapInsert, mapLookup, hk]
  | cons p rest ih =>
    by_cases hp : p.1 = k'
    · have hpk : ¬ p.1 = k := fun he => h (he.symm.trans hp)
      simp [mapInsert, mapLookup, hp, hpk, hk]
    · simp [mapInsert, mapLookup, hp, ih]

theorem mapLookup_mapDelete_self (k : String) (m : List (String × Tasker)) :
    mapLookup k (mapDelete k m) = none := by
  induction m with
  | nil => simp [mapDelete, mapLookup]
  | cons p rest ih =>
    by_cases h : p.1 = k
    · simp [mapDelete, h, ih]
    · simp [mapDelete, mapLookup, h, ih]

theorem mapLookup_mapInsert_isSome (k k' : String) (v w : Tasker)
    (m : List (String × Tasker)) (h : mapLookup k m = some v) :
    ∃ u, mapLookup k (mapInsert k' w m) = some u := by
  by_cases hk : k = k'
  · exact ⟨w, hk ▸ mapLookup_mapInsert_self k w m⟩
  · exact ⟨v, (mapLookup_mapInsert_ne k k' w m hk).trans h⟩

/-! ## Concrete fixtures used by counterexamples and witnesses -/

/-- A job naming tool `T1`, with caller-chosen task identifier `J1`. -/
def jJ1 : Job := { UUID := "J1", ToolUUID := "T1", Status := "created" }

/-! ## C1 -/

/-- C1: the claim states that TaskStatus, TaskPause, TaskRun and
TaskQuit, called with a matching auth token and a task identifier
absent from the Task Store, fail with a No-Such-Task error before
dereferencing the absent entry.  The code does the opposite: the
existence check is inverted and the constructed error is discarded, so
each operation dereferences the absent (nil) entry and panics —
modelled as the crash result `none`.  This theorem evaluates all four
operations at the failing input (matching token `"secret"`, identifier
`J1`, empty store) and shows each one crashes instead of returning
No-Such-Task. -/
theorem taskOps_panic_on_absent_id :
    Queue.TaskStatus (NewResourceQueue "secret") { Auth := "secret", Job := jJ1 } = none ∧
    Queue.TaskPause (NewResourceQueue "secret") { Auth := "secret", Job := jJ1 } = none ∧
    Queue.TaskRun (NewResourceQueue "secret") { Auth := "secret", Job := jJ1 } = none ∧
    Queue.TaskQuit (NewResourceQueue "secret") { Auth := "secret", Job := jJ1 } = none :=
  ⟨rfl, rfl, rfl, rfl⟩

/-! ## C2 -/

/-- C2 counterexample: the claim says every operation of the public
contract — ListTools included — returns an Authentication failure on a
mismatched token.  But `ResourceTools` (the ListTools operation) has no
authentication check: called with token `"wrong"` against a queue whose
secret is `"secret"`, it succeeds (nil error). -/
theorem listTools_ignores_auth_counterexample :
    ("wrong" : String) ≠ (NewResourceQueue "secret").authToken ∧
    (Queue.ResourceTools (NewResourceQueue "secret") { Auth := "wrong", Job := jJ1 }).err = none :=
  ⟨by decide, rfl⟩

/-- C2 (amended): every operation of the public contract EXCEPT
ListTools returns the Authentication failure when the supplied token
differs from the configured secret (the per-task operations also leave
the queue unchanged); ListTools performs no authentication check and
returns a nil error regardless of the token. -/
theorem auth_mismatch_rejected_except_listTools (q : Queue) (rpc : RPCCall)
    (h : rpc.Auth ≠ q.authToken) :
    (q.ResourceHardware rpc).err = some ERROR_AUTH ∧
    (q.AddTask rpc).err = some ERROR_AUTH ∧
    q.TaskStatus rpc = some ⟨some ERROR_AUTH, none, q, []⟩ ∧
    q.TaskPause rpc = some ⟨some ERROR_AUTH, none, q, []⟩ ∧
    q.TaskRun rpc = some ⟨some ERROR_AUTH, none, q, []⟩ ∧
    q.TaskQuit rpc = some ⟨some ERROR_AUTH, none, q, []⟩ ∧
    (q.AllTaskStatus rpc).err = some ERROR_AUTH ∧
    (q.ResourceTools rpc).err = none := by
  refine ⟨?_, ?_, ?_, ?_, ?_, ?_, ?_, rfl⟩ <;>
    simp [Queue.ResourceHardware, Queue.AddTask, Queue.TaskStatus, Queue.TaskPause,
          Queue.TaskRun, Queue.TaskQuit, Queue.AllTaskStatus, h]

/-- Witness for C2's amended theorem: at the concrete queue with secret
`"secret"` and a call carrying token `"wrong"`, the hypothesis holds
and TaskQuit returns the Authentication failure with the queue
untouched. -/
theorem auth_mismatch_rejected_except_listTools_witness :
    ("wrong" : String) ≠ (NewResourceQueue "secret").authToken ∧
    Queue.TaskQuit (NewResourceQueue "secret") { Auth := "wrong", Job := jJ1 } =
      some ⟨some ERROR_AUTH, none, NewResourceQueue "secret", []⟩ :=
  ⟨by decide,
    (auth_mismatch_rejected_except_listTools (NewResourceQueue "secret")
      { Auth := "wrong", Job := jJ1 } (by decide)).2.2.2.2.2.1⟩

/-! ## C3 -/

/-- When no registered tool's UUID matches the job's tool UUID, the
scan loop finishes with the `tasker` local still nil. -/
theorem scanTools_no_match (job : Job) (ts : List Tooler)
    (h : ∀ t ∈ ts, t.UUID ≠ job.ToolUUID) :
    scanTools job ts none = .ok none := by
  induction ts with
  | nil => rfl
  | cons t rest ih =>
    have ht : ¬ t.UUID = job.ToolUUID := h t (by simp)
    simp only [scanTools, if_neg ht]
    exact ih fun t' h' => h t' (by simp [h'])

/-- Claim C3: an AddTask call with a matching auth token whose Job
names a tool identifier matching no registered Tool returns
No-Such-Tool (`ERROR_NO_TOOL`) and leaves the queue — in particular the
Task Store — unchanged. -/
theorem addTask_no_such_tool (q : Queue) (rpc : RPCCall)
    (hauth : rpc.Auth = q.authToken)
    (hno : ∀ t ∈ q.tools, t.UUID ≠ rpc.Job.ToolUUID) :
    (q.AddTask rpc).err = some ERROR_NO_TOOL ∧ (q.AddTask rpc).queue = q := by
  have hsc := scanTools_no_match rpc.Job q.tools hno
  simp [Queue.AddTask, hauth, hsc]

/-- Witness for C3: AddTask against a queue with an empty registry,
with the correct token, returns No-Such-Tool and the queue is
untouched. -/
theorem addTask_no_such_tool_witness :
    (Queue.AddTask (NewResourceQueue "secret") { Auth := "secret", Job := jJ1 }).err =
      some ERROR_NO_TOOL ∧
    (Queue.AddTask (NewResourceQueue "secret") { Auth := "secret", Job := jJ1 }).queue =
      NewResourceQueue "secret" :=
  addTask_no_such_tool (NewResourceQueue "secret") { Auth := "secret", Job := jJ1 }
    rfl (fun _ ht => nomatch ht)

/-! ## C4 -/

/-- Claim C4: TaskPause with a matching token on a stored task whose
`Pause()` fails invokes the task's terminate operation — the trace is
exactly the pause call followed by the quit call on that task — and
returns the original pause error unchanged; the output pointer is
never written (and the store binding is untouched). -/
theorem taskPause_failure_quits_task (q : Queue) (rpc : RPCCall) (t : Tasker) (e : String)
    (hauth : rpc.Auth = q.authToken)
    (hmem : mapLookup rpc.Job.UUID q.stack = some t)
    (hp : t.pauseResult = some e) :
    q.TaskPause rpc =
      some ⟨some e, none, q, [.pause t.taskId, .quit t.taskId]⟩ := by
  simp [Queue.TaskPause, hauth, hmem, Tasker.Pause, hp]

/-- The pause error string used by the C4 witness task. -/
def boomPause : String := "no pause"

/-- A task whose `Pause()` fails with error string boomPause. -/
def tkPauseFail : Tasker :=
  { taskId := 2, runResult := none, pauseResult := some boomPause,
    statusJob := { UUID := "J1", ToolUUID := "T1", Status := "running" },
    quitJob := { UUID := "J1", ToolUUID := "T1", Status := "quit" } }

/-- A queue holding `tkPauseFail` under key J1. -/
def qPauseFail : Queue :=
  { stack := [(jJ1.UUID, tkPauseFail)], tools := [], authToken := "secret",
    hardware := [] }

/-- Witness for C4: pausing task J1 on the concrete queue returns the
pause error and the trace shows the pause then the quit of that task. -/
theorem taskPause_failure_quits_task_witness :
    Queue.TaskPause qPauseFail { Auth := "secret", Job := jJ1 } =
      some ⟨some boomPause, none, qPauseFail,
        [.pause tkPauseFail.taskId, .quit tkPauseFail.taskId]⟩ :=
  taskPause_failure_quits_task qPauseFail { Auth := "secret", Job := jJ1 }
    tkPauseFail boomPause rfl rfl rfl

/-! ## C6 -/

/-- Claim C6: if AddTask (matching token) matches a Tool whose factory
succeeds but the new task's `Run()` fails, the call returns the run
error wrapped with the start-failure context, and the
created-but-failed-to-start task remains stored in the Task Store under
the Job's task identifier. -/
theorem addTask_start_failure_keeps_task (q : Queue) (rpc : RPCCall) (tk : Tasker)
    (e : String)
    (hauth : rpc.Auth = q.authToken)
    (hscan : scanTools rpc.Job q.tools none = .ok (some tk))
    (hrun : tk.runResult = some e) :
    (q.AddTask rpc).err = some (ERROR_START_PREFIX ++ e) ∧
    mapLookup rpc.Job.UUID (q.AddTask rpc).queue.stack = some tk := by
  simp [Queue.AddTask, hauth, hscan, Tasker.Run, hrun, mapLookup_mapInsert_self]

/-- The run error string used by the C6 witness task. -/
def boomRun : String := "gpu on fire"

/-- A task whose `Run()` fails with error string boomRun. -/
def tkRunFail : Tasker :=
  { taskId := 3, runResult := some boomRun, pauseResult := none,
    statusJob := { UUID := "J1", ToolUUID := "T1", Status := "created" },
    quitJob := { UUID := "J1", ToolUUID := "T1", Status := "quit" } }

/-- A registered tool with UUID T1 whose factory always produces
`tkRunFail`. -/
def toolRunFail : Tooler :=
  { UUID := "T1", Name := "hashcat", ToolType := "cracker", Version := "1.0",
    Parameters := "", Requirements := "gpu",
    NewTask := fun _ => .ok tkRunFail }

/-- A queue whose registry holds `toolRunFail` and whose store is
empty. -/
def qRunFail : Queue :=
  { stack := [], tools := [toolRunFail], authToken := "secret",
    hardware := [toolRunFail.Requirements] }

/-- Witness for C6: AddTask on the concrete queue returns the wrapped
start error and task J1 stays in the store. -/
theorem addTask_start_failure_keeps_task_witness :
    (Queue.AddTask qRunFail { Auth := "secret", Job := jJ1 }).err =
      some (ERROR_START_PREFIX ++ boomRun) ∧
    mapLookup jJ1.UUID
      (Queue.AddTask qRunFail { Auth := "secret", Job := jJ1 }).queue.stack =
      some tkRunFail :=
  addTask_start_failure_keeps_task qRunFail { Auth := "secret", Job := jJ1 }
    tkRunFail boomRun rfl rfl rfl

/-! ## C10 -/

/-- Claim C10: AddTask with a matching token and a Job whose task
identifier is already a key of the Task Store silently replaces the
stored task on the successful path: no error is returned for the
duplicate identifier, the store afterwards holds the new task under
that key (the previous task is dropped as-is — no quit is ever invoked
on any task during AddTask, so the old task is not terminated), every
other key is untouched, and the new task's status snapshot is
returned. -/
theorem addTask_replaces_existing_id (q : Queue) (rpc : RPCCall) (tk old : Tasker)
    (hauth : rpc.Auth = q.authToken)
    (hscan : scanTools rpc.Job q.tools none = .ok (some tk))
    (hrun : tk.runResult = none)
    (_hold : mapLookup rpc.Job.UUID q.stack = some old) :
    (q.AddTask rpc).err = none ∧
    (q.AddTask rpc).out = some tk.statusJob ∧
    mapLookup rpc.Job.UUID (q.AddTask rpc).queue.stack = some tk ∧
    TaskEvent.quit old.taskId ∉ (q.AddTask rpc).events ∧
    ∀ k, k ≠ rpc.Job.UUID →
      mapLookup k (q.AddTask rpc).queue.stack = mapLookup k q.stack := by
  refine ⟨?_, ?_, ?_, ?_, fun k hk => ?_⟩ <;>
    simp [Queue.AddTask, hauth, hscan, Tasker.Run, hrun, Tasker.Status,
      mapLookup_mapInsert_self]
  exact mapLookup_mapInsert_ne k rpc.Job.UUID tk q.stack hk

/-- The task stored under J1 before the duplicate AddTask of the C10
witness. -/
def tkOld : Tasker :=
  { taskId := 5, runResult := none, pauseResult := none,
    statusJob := { UUID := "J1", ToolUUID := "T1", Status := "running" },
    quitJob := { UUID := "J1", ToolUUID := "T1", Status := "quit" } }

/-- The replacement task produced by the C10 witness factory. -/
def tkNew : Tasker :=
  { taskId := 6, runResult := none, pauseResult := none,
    statusJob := { UUID := "J1", ToolUUID := "T1", Status := "running" },
    quitJob := { UUID := "J1", ToolUUID := "T1", Status := "quit" } }

/-- A registered tool with UUID T1 whose factory produces `tkNew`. -/
def toolNew : Tooler :=
  { UUID := "T1", Name := "hashcat", ToolType := "cracker", Version := "1.0",
    Parameters := "", Requirements := "gpu",
    NewTask := fun _ => .ok tkNew }

/-- A queue already holding `tkOld` under key J1, with `toolNew`
registered. -/
def qDup : Queue :=
  { stack := [(jJ1.UUID, tkOld)], tools := [toolNew], authToken := "secret",
    hardware := [toolNew.Requirements] }

/-- Witness for C10: the duplicate AddTask succeeds, the store now
holds `tkNew` (not `tkOld`) under J1, and the dropped `tkOld` was never
quit. -/
theorem addTask_replaces_existing_id_witness :
    (Queue.AddTask qDup { Auth := "secret", Job := jJ1 }).err = none ∧
    mapLookup jJ1.UUID (Queue.AddTask qDup { Auth := "secret", Job := jJ1 }).queue.stack =
      some tkNew ∧
    TaskEvent.quit tkOld.taskId ∉ (Queue.AddTask qDup { Auth := "secret", Job := jJ1 }).events ∧
    tkNew ≠ tkOld := by
  have h := addTask_replaces_existing_id qDup { Auth := "secret", Job := jJ1 }
    tkNew tkOld rfl rfl rfl rfl
  exact ⟨h.1, h.2.2.1, h.2.2.2.1, by decide⟩

/-! ## C5 -/

/-- ResourceHardware never changes the queue. -/
theorem resourceHardware_queue_eq (q : Queue) (rpc : RPCCall) :
    (q.ResourceHardware rpc).queue = q := by
  unfold Queue.ResourceHardware
  split <;> rfl

/-- AddTask never removes a key from the store: any key present before
the call is still bound afterwards. -/
theorem addTask_preserves_keys (q : Queue) (rpc : RPCCall) (k : String) (v : Tasker)
    (h : mapLookup k q.stack = some v) :
    ∃ u, mapLookup k (q.AddTask rpc).queue.stack = some u := by
  unfold Queue.AddTask
  split
  · exact ⟨v, h⟩
  · split
    · exact ⟨v, h⟩
    · exact ⟨v, h⟩
    · rename_i tasker heq
      cases hr : tasker.Run <;>
        · simp only [hr]
          exact mapLookup_mapInsert_isSome k rpc.Job.UUID v tasker q.stack h
/-- A returning TaskStatus call leaves the queue unchanged. -/
theorem taskStatus_queue_eq (q : Queue) (rpc : RPCCall) (r : OpResult Job)
    (h : q.TaskStatus rpc = some r) : r.queue = q := by
  unfold Queue.TaskStatus at h
  split at h
  · cases h; rfl
  · split at h
    · cases h; rfl
    · cases h

/-- A returning TaskPause call leaves the queue unchanged (the map
binding survives even the forced-quit path). -/
theorem taskPause_queue_eq (q : Queue) (rpc : RPCCall) (r : OpResult Job)
    (h : q.TaskPause rpc = some r) : r.queue = q := by
  unfold Queue.TaskPause at h
  split at h
  · cases h; rfl
  · split at h
    · split at h
      · cases h; rfl
      · cases h; rfl
    · cases h

/-- A returning TaskRun call leaves the queue unchanged. -/
theorem taskRun_queue_eq (q : Queue) (rpc : RPCCall) (r : OpResult Job)
    (h : q.TaskRun rpc = some r) : r.queue = q := by
  unfold Queue.TaskRun at h
  split at h
  · cases h; rfl
  · split at h
    · split at h
      · cases h; rfl
      · cases h; rfl
    · cases h

/-- AllTaskStatus never changes the queue. -/
theorem allTaskStatus_queue_eq (q : Queue) (rpc : RPCCall) :
    (q.AllTaskStatus rpc).queue = q := by
  unfold Queue.AllTaskStatus
  split <;> rfl

/-- Claim C5: TaskQuit with a matching token on a stored task
terminates it and returns its final status, removes its identifier from
the Task Store (a subsequent lookup misses), and is the only remover:
every other operation of the contract, on any queue, preserves every
key present in the store whenever it returns at all. -/
theorem taskQuit_removes_and_is_only_remover (q : Queue) (rpc : RPCCall) (t : Tasker)
    (hauth : rpc.Auth = q.authToken)
    (hmem : mapLookup rpc.Job.UUID q.stack = some t) :
    (q.TaskQuit rpc =
        some ⟨none, some t.quitJob,
          { q with stack := mapDelete rpc.Job.UUID q.stack }, [.quit t.taskId]⟩ ∧
      mapLookup rpc.Job.UUID (mapDelete rpc.Job.UUID q.stack) = none) ∧
    ∀ (q' : Queue) (rpc' : RPCCall) (k : String) (v : Tasker),
      mapLookup k q'.stack = some v →
      (∃ u, mapLookup k (q'.ResourceHardware rpc').queue.stack = some u) ∧
      (∃ u, mapLookup k (q'.AddTask rpc').queue.stack = some u) ∧
      (∀ r, q'.TaskStatus rpc' = some r → ∃ u, mapLookup k r.queue.stack = some u) ∧
      (∀ r, q'.TaskPause rpc' = some r → ∃ u, mapLookup k r.queue.stack = some u) ∧
      (∀ r, q'.TaskRun rpc' = some r → ∃ u, mapLookup k r.queue.stack = some u) ∧
      (∃ u, mapLookup k (q'.ResourceTools rpc').queue.stack = some u) ∧
      (∃ u, mapLookup k (q'.AllTaskStatus rpc').queue.stack = some u) := by
  constructor
  · constructor
    · simp [Queue.TaskQuit, hauth, hmem, Tasker.Quit]
    · exact mapLookup_mapDelete_self rpc.Job.UUID q.stack
  · intro q' rpc' k v hv
    refine ⟨?_, addTask_preserves_keys q' rpc' k v hv, ?_, ?_, ?_, ⟨v, hv⟩, ?_⟩
    · rw [resourceHardware_queue_eq]
      exact ⟨v, hv⟩
    · intro r hr
      rw [taskStatus_queue_eq q' rpc' r hr]
      exact ⟨v, hv⟩
    · intro r hr
      rw [taskPause_queue_eq q' rpc' r hr]
      exact ⟨v, hv⟩
    · intro r hr
      rw [taskRun_queue_eq q' rpc' r hr]
      exact ⟨v, hv⟩
    · rw [allTaskStatus_queue_eq]
      exact ⟨v, hv⟩

/-- Witness for C5: quitting task J1 on the concrete queue returns its
final status and the store no longer binds J1. -/
theorem taskQuit_removes_and_is_only_remover_witness :
    Queue.TaskQuit qPauseFail { Auth := "secret", Job := jJ1 } =
      some ⟨none, some tkPauseFail.quitJob,
        { qPauseFail with stack := mapDelete jJ1.UUID qPauseFail.stack },
        [.quit tkPauseFail.taskId]⟩ ∧
    mapLookup jJ1.UUID (mapDelete jJ1.UUID qPauseFail.stack) = none :=
  (taskQuit_removes_and_is_only_remover qPauseFail { Auth := "secret", Job := jJ1 }
    tkPauseFail rfl rfl).1

/-! ## C7 -/

/-- A run failure wrapped with the start-failure context can never
collide with the authentication error string: the two differ in their
first character. -/
theorem start_wrapped_ne_auth (e : String) : ERROR_START_PREFIX ++ e ≠ ERROR_AUTH := by
  intro h
  have hd : ERROR_START_PREFIX.data ++ e.data = ERROR_AUTH.data := by
    rw [← String.data_append, h]
  obtain ⟨tl, h1⟩ : ∃ tl, ERROR_START_PREFIX.data = 'E' :: tl := ⟨_, rfl⟩
  obtain ⟨tl2, h2⟩ : ∃ tl2, ERROR_AUTH.data = 'C' :: tl2 := ⟨_, rfl⟩
  rw [h1, h2] at hd
  simp at hd

/-- If AddTask returns the authentication error, the queue is exactly
the input queue (the only branch that mutates the store returns a
wrapped start error, which can never equal `ERROR_AUTH`). -/
theorem addTask_auth_err_queue_eq (q : Queue) (rpc : RPCCall)
    (he : (q.AddTask rpc).err = some ERROR_AUTH) : (q.AddTask rpc).queue = q := by
  by_cases hauth : rpc.Auth = q.authToken
  · cases hsc : scanTools rpc.Job q.tools none with
    | error e => simp [Queue.AddTask, hauth, hsc]
    | ok o =>
      cases o with
      | none => simp [Queue.AddTask, hauth, hsc]
      | some tasker =>
        cases hr : tasker.runResult with
        | none => simp [Queue.AddTask, hauth, hsc, Tasker.Run, hr] at he
        | some e =>
          exfalso
          simp [Queue.AddTask, hauth, hsc, Tasker.Run, hr] at he
          exact start_wrapped_ne_auth e he
  · simp [Queue.AddTask, hauth]

/-- Claim C7: whenever any operation returns the Authentication
failure, the queue — Task Store, Tool Registry, hardware capability
set and token alike — is exactly as it was before the call (for the
read-only and per-task operations this holds for every returning call,
Authentication failure or not; ListTools never returns any error). -/
theorem auth_failure_leaves_state_untouched (q : Queue) (rpc : RPCCall) :
    ((q.ResourceHardware rpc).err = some ERROR_AUTH → (q.ResourceHardware rpc).queue = q) ∧
    ((q.AddTask rpc).err = some ERROR_AUTH → (q.AddTask rpc).queue = q) ∧
    (∀ r, q.TaskStatus rpc = some r → r.err = some ERROR_AUTH → r.queue = q) ∧
    (∀ r, q.TaskPause rpc = some r → r.err = some ERROR_AUTH → r.queue = q) ∧
    (∀ r, q.TaskRun rpc = some r → r.err = some ERROR_AUTH → r.queue = q) ∧
    ((q.ResourceTools rpc).err = some ERROR_AUTH → (q.ResourceTools rpc).queue = q) ∧
    ((q.AllTaskStatus rpc).err = some ERROR_AUTH → (q.AllTaskStatus rpc).queue = q) := by
  refine ⟨fun _ => resourceHardware_queue_eq q rpc,
    addTask_auth_err_queue_eq q rpc,
    fun r hr _ => taskStatus_queue_eq q rpc r hr,
    fun r hr _ => taskPause_queue_eq q rpc r hr,
    fun r hr _ => taskRun_queue_eq q rpc r hr,
    fun _ => rfl,
    fun _ => allTaskStatus_queue_eq q rpc⟩

/-- The envelope carrying the wrong token used by witnesses. -/
def rpcWrong : RPCCall := { Auth := "wrong", Job := jJ1 }

/-- Witness for C7: against the concrete queue, the wrong-token call to
ResourceHardware really does return the Authentication failure, and the
theorem yields that the queue is untouched. -/
theorem auth_failure_leaves_state_untouched_witness :
    (Queue.ResourceHardware qPauseFail rpcWrong).err = some ERROR_AUTH ∧
    (Queue.ResourceHardware qPauseFail rpcWrong).queue = qPauseFail :=
  ⟨rfl, (auth_failure_leaves_state_untouched qPauseFail rpcWrong).1 rfl⟩

/-! ## C8 -/

/-- Membership in the hardware set after one `m[tag] = true`. -/
theorem mem_insertTag (a tag : String) (hw : List String) :
    a ∈ insertTag tag hw ↔ a = tag ∨ a ∈ hw := by
  unfold insertTag
  by_cases h : tag ∈ hw
  · simp only [if_pos h]
    constructor
    · exact Or.inr
    · rintro (rfl | h2)
      · exact h
      · exact h2
  · simp [if_neg h, or_comm]

/-- `insertTag` keeps the hardware set duplicate-free. -/
theorem nodup_insertTag (tag : String) (hw : List String) (h : hw.Nodup) :
    (insertTag tag hw).Nodup := by
  unfold insertTag
  by_cases hm : tag ∈ hw
  · simpa [if_pos hm] using h
  · simp [if_neg hm, List.nodup_append, h, hm]

/-- Registration never changes the auth token. -/
theorem registerAll_authToken (ts : List (Tooler × String)) (q : Queue) :
    (registerAll q ts).authToken = q.authToken := by
  induction ts generalizing q with
  | nil => rfl
  | cons p rest ih =>
    obtain ⟨t, u⟩ := p
    rw [registerAll, ih]
    rfl

/-- A tag is in the capability set after registration iff it was there
before or some registered tool requires it. -/
theorem mem_hardware_registerAll (ts : List (Tooler × String)) (q : Queue) (tag : String) :
    tag ∈ (registerAll q ts).hardware ↔
      tag ∈ q.hardware ∨ ∃ p ∈ ts, p.1.Requirements = tag := by
  induction ts generalizing q with
  | nil => simp [registerAll]
  | cons p rest ih =>
    obtain ⟨t, u⟩ := p
    rw [registerAll, ih]
    simp only [Queue.AddTool, mem_insertTag, List.mem_cons, eq_comm]
    constructor
    · rintro ((h | h) | ⟨p, hp, hr⟩)
      · exact Or.inr ⟨(t, u), Or.inl rfl, h⟩
      · exact Or.inl h
      · exact Or.inr ⟨p, Or.inr hp, hr⟩
    · rintro (h | ⟨p, hp | hp, hr⟩)
      · exact Or.inl (Or.inr h)
      · subst hp
        exact Or.inl (Or.inl hr)
      · exact Or.inr ⟨p, hp, hr⟩

/-- Registration keeps the capability set duplicate-free. -/
theorem nodup_hardware_registerAll (ts : List (Tooler × String)) (q : Queue)
    (h : q.hardware.Nodup) : (registerAll q ts).hardware.Nodup := by
  induction ts generalizing q with
  | nil => exact h
  | cons p rest ih =>
    obtain ⟨t, u⟩ := p
    exact ih _ (nodup_insertTag _ _ h)

/-- Claim C8: after any sequence of tool registrations on a fresh
queue, ReportHardware (with a matching token) returns the hardware
capability set, which is exactly the set-union of the registered
tools' requirement tags — a tag is present iff some registered tool
requires it — with each distinct tag appearing only once (the set is
duplicate-free), and registering a tool whose tag is already present
leaves the capability set unchanged. -/
theorem reportHardware_is_idempotent_union (tok : String) (ts : List (Tooler × String))
    (rpc : RPCCall) (hauth : rpc.Auth = tok) :
    ((registerAll (NewResourceQueue tok) ts).ResourceHardware rpc).out =
      some (registerAll (NewResourceQueue tok) ts).hardware ∧
    (∀ tag, tag ∈ (registerAll (NewResourceQueue tok) ts).hardware ↔
      ∃ p ∈ ts, p.1.Requirements = tag) ∧
    (registerAll (NewResourceQueue tok) ts).hardware.Nodup ∧
    ∀ (q : Queue) (t : Tooler) (u : String),
      t.Requirements ∈ q.hardware → (q.AddTool t u).hardware = q.hardware := by
  refine ⟨?_, ?_, ?_, ?_⟩
  · have htok : (registerAll (NewResourceQueue tok) ts).authToken = tok :=
      registerAll_authToken ts (NewResourceQueue tok)
    simp [Queue.ResourceHardware, hauth, htok]
  · intro tag
    rw [mem_hardware_registerAll]
    simp [NewResourceQueue]
  · exact nodup_hardware_registerAll ts (NewResourceQueue tok) List.nodup_nil
  · intro q t u h
    simp [Queue.AddTool, insertTag, h]

/-- A third tool requiring cpu, for the C8 witness. -/
def toolCpu : Tooler :=
  { UUID := "T9", Name := "john", ToolType := "cracker", Version := "2.0",
    Parameters := "", Requirements := "cpu", NewTask := fun _ => .ok tkNew }

/-- The C8 witness registration sequence: two gpu tools and one cpu
tool. -/
def tsW : List (Tooler × String) := [(toolRunFail, "U1"), (toolNew, "U2"), (toolCpu, "U3")]

/-- Witness for C8: registering two gpu tools and one cpu tool yields
the two-element capability set, returned by ReportHardware. -/
theorem reportHardware_is_idempotent_union_witness :
    ((registerAll (NewResourceQueue "secret") tsW).ResourceHardware
        { Auth := "secret", Job := jJ1 }).out =
      some (registerAll (NewResourceQueue "secret") tsW).hardware ∧
    (registerAll (NewResourceQueue "secret") tsW).hardware = ["gpu", "cpu"] := by
  have h := reportHardware_is_idempotent_union "secret" tsW
    { Auth := "secret", Job := jJ1 } rfl
  exact ⟨h.1, rfl⟩

/-! ## C9 -/

/-- The scan over a concatenated registry: run the first part, then
continue the second part from the `tasker` local it left behind (an
error aborts immediately). -/
theorem scanTools_append (job : Job) (l1 l2 : List Tooler) (acc : Option Tasker) :
    scanTools job (l1 ++ l2) acc =
      match scanTools job l1 acc with
      | .error e => .error e
      | .ok r => scanTools job l2 r := by
  induction l1 generalizing acc with
  | nil => simp [scanTools]
  | cons t rest ih =>
    by_cases h : t.UUID = job.ToolUUID
    · cases hf : t.NewTask job with
      | error e => simp [scanTools, h, hf]
      | ok tk => simp [scanTools, h, hf, ih]
    · simp [scanTools, h, ih]

/-- The first registered tool matching T1 of the C9 counterexample; its
factory yields `tkOld` (taskId 5). -/
def toolFirst : Tooler :=
  { UUID := "T1", Name := "hashcat", ToolType := "cracker", Version := "1.0",
    Parameters := "", Requirements := "gpu", NewTask := fun _ => .ok tkOld }

/-- The second registered tool also matching T1; its factory yields
`tkNew` (taskId 6). -/
def toolSecond : Tooler :=
  { UUID := "T1", Name := "hashcat", ToolType := "cracker", Version := "1.1",
    Parameters := "", Requirements := "gpu", NewTask := fun _ => .ok tkNew }

/-- A second matching tool whose factory fails. -/
def toolSecondErr : Tooler :=
  { UUID := "T1", Name := "hashcat", ToolType := "cracker", Version := "1.2",
    Parameters := "", Requirements := "gpu",
    NewTask := fun _ => .error "factory two exploded" }

/-- A registry holding two tools that both match T1. -/
def qDupTools : Queue :=
  { stack := [], tools := [toolFirst, toolSecond], authToken := "secret",
    hardware := ["gpu"] }

/-- A registry where the second matching tool's factory fails. -/
def qDupToolsErr : Queue :=
  { stack := [], tools := [toolFirst, toolSecondErr], authToken := "secret",
    hardware := ["gpu"] }

/-- C9 counterexample: with two registered tools both carrying
identifier T1, AddTask stores the SECOND match's task (`tkNew`), not
the first match's (`tkOld`) — and the second factory is invoked even
after the first match succeeded: when the second factory fails, its
error is what AddTask returns.  Both refute "only the first match's
factory is invoked and its Task is the one stored". -/
theorem addTask_first_match_counterexample :
    (mapLookup jJ1.UUID
        (Queue.AddTask qDupTools { Auth := "secret", Job := jJ1 }).queue.stack =
      some tkNew ∧ tkNew ≠ tkOld) ∧
    (Queue.AddTask qDupToolsErr { Auth := "secret", Job := jJ1 }).err =
      some "factory two exploded" :=
  ⟨⟨rfl, by decide⟩, rfl⟩

/-- C9 (amended): the Go matching loop has no break, so when several
registered tools carry the Job's tool identifier, every matching
factory is invoked in registry order and the LAST match wins: if the
last matching tool's factory succeeds its task is the scan result and
the one AddTask stores, and if it fails its error is returned even when
an earlier match had already produced a task. -/
theorem addTask_last_match_wins (ts : List Tooler) (t : Tooler) (job : Job) (tk : Tasker)
    (hmatch : t.UUID = job.ToolUUID)
    (hprev : ∃ r, scanTools job ts none = .ok r) :
    (t.NewTask job = .ok tk → scanTools job (ts ++ [t]) none = .ok (some tk)) ∧
    (∀ e, t.NewTask job = .error e → scanTools job (ts ++ [t]) none = .error e) ∧
    (∀ (q : Queue) (rpc : RPCCall), rpc.Auth = q.authToken → rpc.Job = job →
      q.tools = ts ++ [t] → t.NewTask job = .ok tk → tk.runResult = none →
      mapLookup job.UUID (q.AddTask rpc).queue.stack = some tk) := by
  obtain ⟨r, hr⟩ := hprev
  have hlast : ∀ res, t.NewTask job = res →
      scanTools job (ts ++ [t]) none =
        (match res with
          | .error e => .error e
          | .ok tk' => .ok (some tk')) := by
    intro res hres
    rw [scanTools_append, hr]
    cases res <;> simp [scanTools, hmatch, hres]
  refine ⟨fun hok => hlast _ hok, fun e herr => hlast _ herr, ?_⟩
  intro q rpc hauth hjob htools hok hrun
  subst hjob
  have hscan : scanTools rpc.Job q.tools none = .ok (some tk) := by
    rw [htools]
    exact hlast _ hok
  simp [Queue.AddTask, hauth, hscan, Tasker.Run, hrun, mapLookup_mapInsert_self]

/-- Witness for C9's amended theorem: with `toolFirst` before
`toolSecond`, the scan yields `toolSecond`'s task and AddTask on the
concrete duplicate-registry queue stores it. -/
theorem addTask_last_match_wins_witness :
    scanTools jJ1 ([toolFirst] ++ [toolSecond]) none = .ok (some tkNew) ∧
    mapLookup jJ1.UUID
        (Queue.AddTask qDupTools { Auth := "secret", Job := jJ1 }).queue.stack =
      some tkNew := by
  have h := addTask_last_match_wins [toolFirst] toolSecond jJ1 tkNew rfl
    ⟨some tkOld, rfl⟩
  exact ⟨h.1 rfl, h.2.2 qDupTools { Auth := "secret", Job := jJ1 } rfl rfl rfl rfl rfl⟩
